/-
Verification of the city-weather enrichment pipeline (src/app.py).

The pipeline fetches per-city weather from a remote API, optionally enriches
it with static CSV metadata, classifies the free-text weather description via
a language-model call, and persists the resulting records to a SQLite table
with a UNIQUE(city, timestamp) constraint.

Shallow embedding choices:
* External collaborators (the CSV load, the HTTP weather endpoint, the LLM
  endpoint, the wall clock, storage availability) are parameters gathered in
  an `Env` record; an exception raised by a collaborator is an explicit
  error value of that parameter.
* Python exceptions caught by the try/except blocks in the source become
  `Option`/`Except` results.
* Python floats are modelled as rationals; the built-in `round(x, 2)` is
  modelled as exact round-half-to-even at two decimal places, and `int(x)`
  as truncation toward zero.
* The SQLite table is a list of rows; `df.to_sql(..., if_exists="append")`
  runs all inserts of the batch in one transaction that is rolled back if
  any insert violates the UNIQUE(city, timestamp) constraint, so the call
  either appends every row or leaves the table unchanged.
-/
import Mathlib

set_option autoImplicit false

namespace WeatherInsight

/-! ## Data model -/

/-- A numeric CSV cell as pandas sees it: either missing (NaN) or a number.
Used for the `population` column of the metadata table. -/
inductive PopCell where
  | nan
  | num (q : ℚ)
deriving DecidableEq

/-- One row of `data/cities_metadata.csv` as returned by
`city_data.iloc[0].to_dict()`: the key column `city`, an optional `country`
and the `population` cell (`none` models a row whose dictionary has no
population key at all). -/
structure MetaRow where
  city : String
  country : Option String
  population : Option PopCell
deriving DecidableEq

/-- One entry of the `weather` array of the OpenWeatherMap JSON payload;
`description` is `none` when the key is absent. -/
structure WeatherEntry where
  description : Option String
deriving DecidableEq

/-- The JSON payload of a weather response; each expected field is `none`
when missing from the payload. -/
structure WeatherPayload where
  mainTemp : Option ℚ
  mainHumidity : Option ℚ
  windSpeed : Option ℚ
  weather : List WeatherEntry
deriving DecidableEq

/-- Behaviour of the outbound HTTP GET for one city: a transport failure
(`requests.get` raising), or a response with a status code and a body
(`none` body models `res.json()` raising on an unparsable payload). -/
inductive HttpOutcome where
  | transportError
  | response (status : Nat) (body : Option WeatherPayload)

/-- The `structured` dictionary built by `fetch_weather_data`. -/
structure Structured where
  temperature : ℚ
  humidity : ℚ
  wind_speed : ℚ
deriving DecidableEq

/-- The `combined` dictionary returned by `clean_and_combine_data`, before
the `ai_category` key is added. -/
structure Combined where
  city : String
  country : Option String
  population : Option ℤ
  temperature : ℚ
  humidity : ℚ
  wind_speed : ℚ
  description : String
  timestamp : String
deriving DecidableEq

/-- A finished enriched record: the `combined` dictionary after
`combined["ai_category"] = classify_weather(...)`.  Also the row shape of
the `weather_insights` SQLite table (minus the surrogate id). -/
structure Record where
  city : String
  country : Option String
  population : Option ℤ
  temperature : ℚ
  humidity : ℚ
  wind_speed : ℚ
  description : String
  ai_category : String
  timestamp : String
deriving DecidableEq

/-- Adding the `ai_category` key to the combined dictionary. -/
def set_ai_category (c : Combined) (cat : String) : Record :=
  { city := c.city, country := c.country, population := c.population,
    temperature := c.temperature, humidity := c.humidity,
    wind_speed := c.wind_speed, description := c.description,
    ai_category := cat, timestamp := c.timestamp }

/-! ## Numeric helpers: Python round(x, 2) and int(x) on rationals -/

/-- Python `int(x)`: truncation toward zero, on the reduced
numerator and denominator. -/
def pyInt (q : ℚ) : ℤ := Int.tdiv q.num q.den

/-- Python built-in `round` to an integer: round half to even. -/
def roundHalfEven (q : ℚ) : ℤ :=
  if q - (⌊q⌋ : ℚ) < 1 / 2 then ⌊q⌋
  else if 1 / 2 < q - (⌊q⌋ : ℚ) then ⌊q⌋ + 1
  else if ⌊q⌋ % 2 = 0 then ⌊q⌋ else ⌊q⌋ + 1

/-- Python `round(x, 2)`: round half to even at two decimal places. -/
def round2 (q : ℚ) : ℚ := ((roundHalfEven (q * 100) : ℚ)) / 100

/-! ## String helpers: Python str.lower() and str.strip() -/

/-- Python `str.lower()` (also pandas `.str.lower()`): lowercase every
character. -/
def pyLower (s : String) : String := ⟨s.data.map Char.toLower⟩

/-- Python `str.strip()`: drop whitespace from both ends. -/
def pyStrip (s : String) : String :=
  ⟨((s.data.dropWhile Char.isWhitespace).reverse.dropWhile
      Char.isWhitespace).reverse⟩

/-! ## The environment: external collaborators of the pipeline -/

/-- External collaborators of one run.  `table` is the parsed CSV
(`none` models `pd.read_csv` raising), `weatherApi` the HTTP GET per city,
`llm` the chat-completion call per prompt (`Except.error` models the call
raising), `now` the wall-clock ISO timestamp, and `dbAvailable` whether the
SQLite storage is reachable. -/
structure Env where
  table : Option (List MetaRow)
  weatherApi : String → HttpOutcome
  llm : String → Except String String
  now : String
  dbAvailable : Bool

/-! ## fetch_city_metadata -/

/-- `fetch_city_metadata(city_name)`: load the CSV, filter rows whose
lowercased `city` equals the lowercased input, return the first match as a
dictionary; `None` when no row matches or when loading raised. -/
def fetch_city_metadata (table : Option (List MetaRow)) (city_name : String) :
    Option MetaRow :=
  match table with
  | none => none
  | some rows => rows.find? (fun r => pyLower r.city == pyLower city_name)

/-! ## fetch_weather_data -/

/-- `fetch_weather_data(city_name)`: one HTTP GET; `None` on transport
failure, on a non-200 status, and on any missing expected field
(`main.temp`, `main.humidity`, `wind.speed`, `weather[0].description`) —
those raise KeyError/IndexError inside the try block.  On success, the
structured metrics paired with the free-text description. -/
def fetch_weather_data (weatherApi : String → HttpOutcome)
    (city_name : String) : Option (Structured × String) :=
  match weatherApi city_name with
  | HttpOutcome.transportError => none
  | HttpOutcome.response status body =>
    if status ≠ 200 then none
    else
      match body with
      | none => none
      | some data =>
        match data.mainTemp, data.mainHumidity, data.windSpeed with
        | some t, some h, some w =>
          match data.weather.head? with
          | none => none
          | some entry =>
            match entry.description with
            | none => none
            | some desc => some (⟨t, h, w⟩, desc)
        | _, _, _ => none

/-! ## clean_and_combine_data -/

/-- `clean_and_combine_data(city_name, metadata, weather_data)`: `None`
when `weather_data` is falsy; otherwise the combined dictionary with
`population` coerced via `int(...)` exactly when metadata is present and
`pd.notna(metadata.get("population"))` holds, numeric weather fields
rounded to 2 decimals, and the construction-time timestamp. -/
def clean_and_combine_data (now : String) (city_name : String)
    (metadata : Option MetaRow) (weather_data : Option (Structured × String)) :
    Option Combined :=
  match weather_data with
  | none => none
  | some (structured_weather, unstructured_text) =>
    let population : Option ℤ :=
      match metadata with
      | some m =>
        match m.population with
        | some (PopCell.num q) => some (pyInt q)
        | _ => none
      | none => none
    some
      { city := city_name
        country := match metadata with
          | some m => m.country
          | none => none
        population := population
        temperature := round2 structured_weather.temperature
        humidity := round2 structured_weather.humidity
        wind_speed := round2 structured_weather.wind_speed
        description := unstructured_text
        timestamp := now }

/-! ## classify_weather -/

/-- The `valid_categories` list of `classify_weather`. -/
def valid_categories : List String :=
  ["Clear", "Cloudy", "Rainy", "Stormy", "Snowy", "Extreme"]

/-- The seven values an `ai_category` may take: the six valid categories
plus the sentinel. -/
def allowed_categories : List String := valid_categories ++ ["Unknown"]

/-- The deterministic instruction prompt built by `classify_weather`. -/
def make_prompt (text : String) : String :=
  "Classify the following weather description into one of these " ++
  "categories: Clear, Cloudy, Rainy, Stormy, Snowy, or Extreme.\n\n" ++
  "Weather description: " ++ text ++ "\n\nReturn only the category name:"

/-- `classify_weather(text)`: call the model on the prompt; on any raised
exception return "Unknown"; otherwise strip the raw content and return it
when it is one of the six valid category strings, else "Unknown". -/
def classify_weather (llm : String → Except String String) (text : String) :
    String :=
  match llm (make_prompt text) with
  | Except.error _ => "Unknown"
  | Except.ok content =>
    let result := pyStrip content
    if result ∈ valid_categories then result else "Unknown"

/-! ## The SQLite store: init_database and save_to_database -/

/-- One INSERT into `weather_insights`: rejected when a stored row already
has the same (city, timestamp) pair — the UNIQUE(city, timestamp)
constraint from `init_database` — otherwise the row is appended. -/
def insert_row (tbl : List Record) (r : Record) : Except Unit (List Record) :=
  if tbl.any (fun x => x.city == r.city && x.timestamp == r.timestamp) then
    Except.error ()
  else
    Except.ok (tbl ++ [r])

/-- The inserts of one batch, in order, each seeing the rows inserted
before it; the first constraint violation aborts the batch. -/
def insert_rows : List Record → List Record → Except Unit (List Record)
  | tbl, [] => Except.ok tbl
  | tbl, r :: rest =>
    match insert_row tbl r with
    | Except.error e => Except.error e
    | Except.ok tbl2 => insert_rows tbl2 rest

/-- `save_to_database(df)`: `df.to_sql("weather_insights", conn,
if_exists="append")`.  Raises when the storage is unreachable
(`sqlite3.connect` fails) or when any insert of the batch violates the
uniqueness constraint. -/
def save_to_database (available : Bool) (tbl : List Record)
    (rs : List Record) : Except Unit (List Record) :=
  if available then insert_rows tbl rs else Except.error ()

/-- The observable effect of one `save_to_database` call: pandas runs the
batch inside a single transaction and rolls it back when any insert
raises, so on failure the stored table is unchanged.  Returns the table
after the call and whether the call succeeded. -/
def run_append (available : Bool) (tbl : List Record) (rs : List Record) :
    List Record × Bool :=
  match save_to_database available tbl rs with
  | Except.ok tbl2 => (tbl2, true)
  | Except.error _ => (tbl, false)

/-- Number of stored rows carrying a given (city, timestamp) pair. -/
def countPair (tbl : List Record) (c t : String) : Nat :=
  (tbl.filter (fun x => x.city == c && x.timestamp == t)).length

/-! ## build_weather_table -/

/-- The body of the per-city loop of `build_weather_table`: metadata
lookup, weather fetch (skip the city when it fails), clean-and-combine
(skip when falsy), then LLM classification added as `ai_category`. -/
def process_city (env : Env) (city : String) : Option Record :=
  let metadata := fetch_city_metadata env.table city
  let weather_data := fetch_weather_data env.weatherApi city
  match weather_data with
  | none => none
  | some wd =>
    match clean_and_combine_data env.now city metadata (some wd) with
    | none => none
    | some combined =>
      some (set_ai_category combined
        (classify_weather env.llm combined.description))

/-- The `for city in cities` loop of `build_weather_table`: cities are
processed one at a time in input order, each successful record appended to
the accumulator. -/
def build_loop (env : Env) : List String → List Record → List Record
  | [], records => records
  | city :: rest, records =>
    match process_city env city with
    | none => build_loop env rest records
    | some r => build_loop env rest (records ++ [r])

/-- What one run returns and does: the returned table of records, whether
`save_to_database` was called, whether that call succeeded, and the stored
table after the run. -/
structure RunOutcome where
  result : List Record
  saveAttempted : Bool
  saveOk : Bool
  db : List Record

/-- `build_weather_table(cities)`: run the loop; when no record was
accumulated return an empty table at once (no save attempt); otherwise
attempt the batch save inside try/except — a failure is reported but the
computed records are returned either way. -/
def build_weather_table (env : Env) (db : List Record)
    (cities : List String) : RunOutcome :=
  let records := build_loop env cities []
  if records.isEmpty then
    { result := [], saveAttempted := false, saveOk := false, db := db }
  else
    let p := run_append env.dbAvailable db records
    { result := records, saveAttempted := true, saveOk := p.2, db := p.1 }

/-! ## Helper lemmas -/

/-- Unrolling the per-city loop: the accumulator is extended, in input
order, with exactly the records of the cities whose processing succeeds. -/
theorem build_loop_eq (env : Env) (cities : List String) (acc : List Record) :
    build_loop env cities acc = acc ++ cities.filterMap (process_city env) := by
  induction cities generalizing acc with
  | nil => simp [build_loop]
  | cons c rest ih =>
    cases h : process_city env c with
    | none => simp [build_loop, h, ih]
    | some r => simp [build_loop, h, ih]

/-! ## Claim theorems -/

/-- Claim C1: for every weather description string, `classify_weather`
returns a member of the fixed seven-value set Clear, Cloudy, Rainy,
Stormy, Snowy, Extreme, Unknown.  When the raw model response, stripped,
exactly matches one of the six valid category strings it is returned;
otherwise — including when the model call raises — the result is
"Unknown".  No other string is ever produced. -/
theorem classify_weather_spec (llm : String → Except String String)
    (text : String) :
    classify_weather llm text ∈ allowed_categories ∧
    (∀ raw, llm (make_prompt text) = Except.ok raw →
      (pyStrip raw ∈ valid_categories →
        classify_weather llm text = pyStrip raw) ∧
      (pyStrip raw ∉ valid_categories →
        classify_weather llm text = "Unknown")) ∧
    (∀ e, llm (make_prompt text) = Except.error e →
      classify_weather llm text = "Unknown") := by
  refine ⟨?_, ?_, ?_⟩
  · cases h : llm (make_prompt text) with
    | error e => simp [classify_weather, h, allowed_categories, valid_categories]
    | ok content =>
      by_cases hv : pyStrip content ∈ valid_categories
      · have hc : classify_weather llm text = pyStrip content := by
          simp [classify_weather, h, hv]
        rw [hc]
        exact List.mem_append_left _ hv
      · have hc : classify_weather llm text = "Unknown" := by
          simp [classify_weather, h, hv]
        rw [hc]
        decide
  · intro raw hraw
    constructor
    · intro hmem
      simp [classify_weather, hraw, hmem]
    · intro hmem
      simp [classify_weather, hraw, hmem]
  · intro e he
    simp [classify_weather, he]

/-- Witness for C1: a model response " Rainy " strips to the valid
category "Rainy" and is returned; an unreachable model yields "Unknown". -/
theorem classify_weather_spec_witness :
    classify_weather (fun _ => Except.ok " Rainy ") "light rain" = "Rainy" ∧
    classify_weather (fun _ => Except.error "model unreachable")
      "light rain" = "Unknown" := by
  constructor
  · have h := ((classify_weather_spec (fun _ => Except.ok " Rainy ")
      "light rain").2.1 " Rainy " rfl).1 (by decide)
    rwa [show pyStrip " Rainy " = "Rainy" by decide] at h
  · exact (classify_weather_spec (fun _ => Except.error "model unreachable")
      "light rain").2.2 "model unreachable" rfl

/-- Claim C2: the pipeline processes cities one at a time in input order;
the run result is exactly the in-order list of records of the cities whose
processing succeeds — a failed city is absent and does not affect any
other city, since each record depends only on that city. -/
theorem build_result_eq_filterMap (env : Env) (db : List Record)
    (cities : List String) :
    (build_weather_table env db cities).result =
      cities.filterMap (process_city env) := by
  have h := build_loop_eq env cities []
  rw [List.nil_append] at h
  unfold build_weather_table
  rw [h]
  cases hl : cities.filterMap (process_city env) with
  | nil => simp
  | cons a l => simp

/-- An environment in which every external collaborator fails: the CSV is
unreadable, every HTTP GET has a transport failure, the model is
unreachable. -/
def env_allfail : Env :=
  { table := none
    weatherApi := fun _ => HttpOutcome.transportError
    llm := fun _ => Except.error "unreachable"
    now := "2026-10-12T00:00:00"
    dbAvailable := true }

/-- Counterexample to claim C3 as stated: in a run where the only city
fails its weather fetch, the run-level result is the empty list and no
batch persistence attempt is made on it — `build_weather_table` returns
the empty table before reaching the save step. -/
theorem build_empty_run_no_save_attempt :
    (build_weather_table env_allfail [] ["Nowhereville"]).result = [] ∧
    (build_weather_table env_allfail [] ["Nowhereville"]).saveAttempted
      = false :=
  ⟨rfl, rfl⟩

/-- Claim C3 (amended): a batch persistence attempt is made on the
run-level result before it is returned exactly when at least one record
was accumulated; when every city failed, the empty result is returned
without a persistence attempt. -/
theorem build_save_attempt_iff_nonempty (env : Env) (db : List Record)
    (cities : List String) :
    (build_weather_table env db cities).saveAttempted =
      !(build_weather_table env db cities).result.isEmpty := by
  unfold build_weather_table
  by_cases h : (build_loop env cities []).isEmpty = true <;> simp [h]

/-- A successful batch insert appends exactly the rows of the batch, in
order, to the stored table. -/
theorem insert_rows_ok_eq (rs : List Record) : ∀ tbl tbl2 : List Record,
    insert_rows tbl rs = Except.ok tbl2 → tbl2 = tbl ++ rs := by
  induction rs with
  | nil =>
    intro tbl tbl2 h
    simp [insert_rows] at h
    simp [h.symm]
  | cons r rest ih =>
    intro tbl tbl2 h
    unfold insert_rows at h
    cases hr : insert_row tbl r with
    | error e => rw [hr] at h; cases h
    | ok tbl1 =>
      rw [hr] at h
      have h2 := ih tbl1 tbl2 h
      unfold insert_row at hr
      by_cases hc : tbl.any
          (fun x => x.city == r.city && x.timestamp == r.timestamp) = true
      · simp [hc] at hr
      · simp [hc] at hr
        rw [h2, ← hr]
        simp

/-- One `save_to_database` call, with its transaction, either appends the
whole batch or leaves the stored table unchanged. -/
theorem run_append_cases (available : Bool) (tbl rs : List Record) :
    run_append available tbl rs = (tbl ++ rs, true) ∨
    run_append available tbl rs = (tbl, false) := by
  unfold run_append
  cases h : save_to_database available tbl rs with
  | error e => right; rfl
  | ok tbl2 =>
    left
    unfold save_to_database at h
    cases available with
    | false => simp at h
    | true =>
      simp only [if_true] at h
      rw [insert_rows_ok_eq rs tbl tbl2 h]

/-- A stored (city, timestamp) pair occurring in the table makes the
uniqueness test of `insert_row` fire. -/
theorem any_conflict_of_countPair_pos (tbl : List Record) (c t : String)
    (h : 0 < countPair tbl c t) :
    tbl.any (fun x => x.city == c && x.timestamp == t) = true := by
  unfold countPair at h
  have hne : (tbl.filter fun x => x.city == c && x.timestamp == t) ≠ [] := by
    intro hnil
    rw [hnil] at h
    simp at h
  obtain ⟨x, hx⟩ := List.exists_mem_of_ne_nil _ hne
  have hm := List.mem_filter.mp hx
  exact List.any_eq_true.mpr ⟨x, hm.1, hm.2⟩

/-- Case analysis of one run: either no record was accumulated and the
empty table is returned with no save attempt, or the accumulated records
are returned after one attempted batch save. -/
theorem build_weather_table_cases (env : Env) (db : List Record)
    (cities : List String) :
    (build_loop env cities [] = [] ∧
      build_weather_table env db cities =
        { result := [], saveAttempted := false, saveOk := false, db := db }) ∨
    (build_loop env cities [] ≠ [] ∧
      build_weather_table env db cities =
        { result := build_loop env cities [], saveAttempted := true,
          saveOk := (run_append env.dbAvailable db (build_loop env cities [])).2,
          db := (run_append env.dbAvailable db (build_loop env cities [])).1 }) := by
  unfold build_weather_table
  by_cases h : (build_loop env cities []).isEmpty = true
  · left
    rw [List.isEmpty_iff] at h
    simp [h]
  · right
    have hne : build_loop env cities [] ≠ [] := by
      intro hnil
      rw [List.isEmpty_iff] at h
      exact h hnil
    simp [hne]

/-- Claim C10: batch append is all-or-nothing with respect to the store
state: either every record of the batch is appended and the call succeeds,
or the call fails — for instance on a (city, timestamp) uniqueness
violation — and the stored table is exactly its state before the append. -/
theorem save_all_or_nothing (available : Bool) (tbl rs : List Record) :
    run_append available tbl rs = (tbl ++ rs, true) ∨
    run_append available tbl rs = (tbl, false) :=
  run_append_cases available tbl rs

/-- Claim C4: appending a record whose (city, timestamp) pair already has
exactly one stored row leaves exactly one stored row for that pair, not
two: the uniqueness constraint rejects the conflicting insert and the
stored table is unchanged — the existing row is never overwritten. -/
theorem append_duplicate_pair_single_row (tbl : List Record) (r : Record)
    (h : countPair tbl r.city r.timestamp = 1) :
    countPair (run_append true tbl [r]).1 r.city r.timestamp = 1 ∧
    (run_append true tbl [r]).2 = false ∧
    (run_append true tbl [r]).1 = tbl := by
  have hany : tbl.any
      (fun x => x.city == r.city && x.timestamp == r.timestamp) = true :=
    any_conflict_of_countPair_pos tbl r.city r.timestamp (by omega)
  have hrun : run_append true tbl [r] = (tbl, false) := by
    simp [run_append, save_to_database, insert_rows, insert_row, hany]
  rw [hrun]
  exact ⟨h, rfl, rfl⟩

/-- A concrete enriched record used to exercise the store. -/
def rec_a : Record :=
  { city := "Paris", country := some "France", population := some 2148000,
    temperature := 18, humidity := 60, wind_speed := 5,
    description := "clear sky", ai_category := "Clear",
    timestamp := "2026-10-12T00:00:00" }

/-- Witness for C4: re-appending the one stored Paris record is rejected
and the store still holds exactly one row for its (city, timestamp). -/
theorem append_duplicate_pair_single_row_witness :
    countPair (run_append true [rec_a] [rec_a]).1 rec_a.city
      rec_a.timestamp = 1 ∧
    (run_append true [rec_a] [rec_a]).2 = false ∧
    (run_append true [rec_a] [rec_a]).1 = [rec_a] :=
  append_duplicate_pair_single_row [rec_a] rec_a (by decide)

/-- Claim C5: if the persistence step fails, the pipeline still returns
its already-computed in-memory result set unchanged — the in-order records
of the cities that succeeded — and the stored table is unchanged. -/
theorem build_save_failure_returns_records (env : Env) (db : List Record)
    (cities : List String)
    (h : (build_weather_table env db cities).saveOk = false) :
    (build_weather_table env db cities).result =
      cities.filterMap (process_city env) ∧
    (build_weather_table env db cities).db = db := by
  have hb := build_loop_eq env cities []
  rw [List.nil_append] at hb
  rcases build_weather_table_cases env db cities with ⟨hnil, heq⟩ | ⟨hne, heq⟩
  · rw [heq]
    refine ⟨?_, rfl⟩
    rw [← hb, hnil]
  · rw [heq]
    refine ⟨hb, ?_⟩
    rcases run_append_cases env.dbAvailable db (build_loop env cities [])
        with hro | hro
    · rw [heq] at h
      rw [hro] at h
      cases h
    · rw [hro]

/-- The metadata row of Paris in the reference CSV. -/
def mrow_paris : MetaRow :=
  { city := "Paris", country := some "France",
    population := some (PopCell.num 2148000) }

/-- A well-formed weather payload with every expected field present. -/
def payload_ok : WeatherPayload :=
  { mainTemp := some 18, mainHumidity := some 60, windSpeed := some 5,
    weather := [{ description := some "clear sky" }] }

/-- An environment whose weather and model calls succeed but whose SQLite
storage is unreachable. -/
def env_nodb : Env :=
  { table := some [mrow_paris]
    weatherApi := fun _ => HttpOutcome.response 200 (some payload_ok)
    llm := fun _ => Except.ok "Clear"
    now := "2026-10-12T00:00:00"
    dbAvailable := false }

/-- Witness for C5: with storage unreachable, a run over Paris whose save
fails still returns the computed record list, and the store is unchanged. -/
theorem build_save_failure_returns_records_witness :
    (build_weather_table env_nodb [] ["Paris"]).result =
      ["Paris"].filterMap (process_city env_nodb) ∧
    (build_weather_table env_nodb [] ["Paris"]).db = [] :=
  build_save_failure_returns_records env_nodb [] ["Paris"] rfl

/-- Claim C6: when metadata is absent the combined record is still built,
with `country` and `population` absent; when metadata is present,
`country` is copied and `population` is coerced to an integer exactly when
the population cell is non-absent and non-missing numeric, and left
absent otherwise. -/
theorem clean_and_combine_metadata_handling (now city : String)
    (sw : Structured) (text : String) :
    (∃ c, clean_and_combine_data now city none (some (sw, text)) = some c ∧
      c.country = none ∧ c.population = none) ∧
    (∀ m : MetaRow,
      (∃ c, clean_and_combine_data now city (some m) (some (sw, text))
          = some c ∧ c.country = m.country) ∧
      (∀ q, m.population = some (PopCell.num q) →
        ∃ c, clean_and_combine_data now city (some m) (some (sw, text))
          = some c ∧ c.population = some (pyInt q)) ∧
      (m.population = none ∨ m.population = some PopCell.nan →
        ∃ c, clean_and_combine_data now city (some m) (some (sw, text))
          = some c ∧ c.population = none)) := by
  refine ⟨⟨_, rfl, rfl, rfl⟩, ?_⟩
  intro m
  refine ⟨⟨_, rfl, rfl⟩, ?_, ?_⟩
  · intro q hq
    refine ⟨_, rfl, ?_⟩
    simp only [hq]
  · intro hq
    refine ⟨_, rfl, ?_⟩
    rcases hq with hq | hq <;> simp only [hq]

/-- Witness for C6: the Paris metadata row carries the numeric population
2148000, which the combined record holds as the coerced integer. -/
theorem clean_and_combine_metadata_handling_witness :
    ∃ c, clean_and_combine_data "2026-10-12T00:00:00" "Paris"
        (some mrow_paris) (some (⟨18, 60, 5⟩, "clear sky")) = some c ∧
      c.population = some (pyInt 2148000) :=
  (((clean_and_combine_metadata_handling "2026-10-12T00:00:00" "Paris"
    ⟨18, 60, 5⟩ "clear sky").2 mrow_paris).2.1) 2148000 rfl

/-- A found row of `List.find?` satisfies the predicate, belongs to the
list, and is the first such row: everything before it fails the
predicate. -/
theorem find?_first (p : MetaRow → Bool) :
    ∀ (rows : List MetaRow) (r : MetaRow), rows.find? p = some r →
      r ∈ rows ∧ p r = true ∧
      ∃ pre post, rows = pre ++ r :: post ∧ ∀ x ∈ pre, p x = false := by
  intro rows
  induction rows with
  | nil => intro r h; cases h
  | cons a l ih =>
    intro r h
    by_cases ha : p a = true
    · rw [List.find?_cons_of_pos _ ha] at h
      cases h
      exact ⟨List.mem_cons_self _ _, ha, [], l, rfl, by simp⟩
    · have ha2 : ¬ p a := ha
      rw [List.find?_cons_of_neg _ ha2] at h
      obtain ⟨hm, hp, pre, post, heq, hpre⟩ := ih r h
      refine ⟨List.mem_cons_of_mem _ hm, hp, a :: pre, post,
        by rw [heq]; simp, ?_⟩
      intro x hx
      rcases List.mem_cons.mp hx with hx | hx
      · rw [hx]
        exact Bool.eq_false_iff.mpr (by simpa using ha)
      · exact hpre x hx

/-- Claim C7: metadata lookup matches the input city case-insensitively
against the city column and returns the first matching row; it returns
absent both when no row matches and when the table could not be loaded
(the load failure is caught, not propagated). -/
theorem fetch_city_metadata_spec (city : String) :
    fetch_city_metadata none city = none ∧
    ∀ rows : List MetaRow,
      (∀ r, fetch_city_metadata (some rows) city = some r →
        r ∈ rows ∧ pyLower r.city = pyLower city ∧
        ∃ pre post, rows = pre ++ r :: post ∧
          ∀ x ∈ pre, pyLower x.city ≠ pyLower city) ∧
      (fetch_city_metadata (some rows) city = none ↔
        ∀ x ∈ rows, pyLower x.city ≠ pyLower city) := by
  refine ⟨rfl, ?_⟩
  intro rows
  constructor
  · intro r h
    obtain ⟨hm, hp, pre, post, heq, hpre⟩ :=
      find?_first (fun x => pyLower x.city == pyLower city) rows r h
    refine ⟨hm, by simpa using hp, pre, post, heq, ?_⟩
    intro x hx
    have h2 := hpre x hx
    simpa using h2
  · have hdef : fetch_city_metadata (some rows) city =
        rows.find? (fun x => pyLower x.city == pyLower city) := rfl
    rw [hdef, List.find?_eq_none]
    constructor <;> intro h x hx <;> have h2 := h x hx <;> simpa using h2

/-- Three metadata rows, two of which match "London" up to case; the
upper-case one comes first. -/
def rows_ex : List MetaRow :=
  [{ city := "Berlin", country := some "Germany", population := none },
   { city := "LONDON", country := some "UK", population := some PopCell.nan },
   { city := "london", country := none, population := none }]

/-- The first row of `rows_ex` matching "London" case-insensitively. -/
def row_london : MetaRow :=
  { city := "LONDON", country := some "UK", population := some PopCell.nan }

/-- Witness for C7: looking up "London" in `rows_ex` returns the
upper-case LONDON row, the first case-insensitive match, skipping only
non-matching rows. -/
theorem fetch_city_metadata_spec_witness :
    row_london ∈ rows_ex ∧ pyLower row_london.city = pyLower "London" ∧
    ∃ pre post, rows_ex = pre ++ row_london :: post ∧
      ∀ x ∈ pre, pyLower x.city ≠ pyLower "London" :=
  ((fetch_city_metadata_spec "London").2 rows_ex).1 row_london (by decide)

/-- Round half to even moves a rational by at most one half. -/
theorem roundHalfEven_close (q : ℚ) :
    |(roundHalfEven q : ℚ) - q| ≤ 1 / 2 := by
  have h1 : (⌊q⌋ : ℚ) ≤ q := Int.floor_le q
  have h2 : q < ⌊q⌋ + 1 := Int.lt_floor_add_one q
  unfold roundHalfEven
  by_cases hlt : q - (⌊q⌋ : ℚ) < 1 / 2
  · rw [if_pos hlt, abs_le]
    constructor <;> linarith
  · rw [if_neg hlt]
    by_cases hgt : 1 / 2 < q - (⌊q⌋ : ℚ)
    · rw [if_pos hgt]
      push_cast
      rw [abs_le]
      constructor <;> linarith
    · rw [if_neg hgt]
      by_cases hev : ⌊q⌋ % 2 = 0
      · rw [if_pos hev, abs_le]
        constructor <;> linarith
      · rw [if_neg hev]
        push_cast
        rw [abs_le]
        constructor <;> linarith

/-- Rounding at two decimal places moves a rational by at most 1/200. -/
theorem round2_close (q : ℚ) : |round2 q - q| ≤ 1 / 200 := by
  have h := roundHalfEven_close (q * 100)
  rw [abs_le] at h ⊢
  unfold round2
  constructor <;> [linarith [h.1]; linarith [h.2]]

/-- A rounded value has exactly two decimal places: one hundred times it
is an integer. -/
theorem round2_two_decimals (q : ℚ) :
    ∃ k : ℤ, round2 q * 100 = (k : ℚ) := by
  refine ⟨roundHalfEven (q * 100), ?_⟩
  unfold round2
  field_simp

/-- Claim C8: in every record produced by combine, the temperature,
humidity and wind_speed fields equal the fetched values rounded to
exactly 2 decimal places: each is `round2` of the fetched value, one
hundred times each is an integer, and each sits within 1/200 of the
fetched value. -/
theorem clean_and_combine_rounds (now city : String) (md : Option MetaRow)
    (sw : Structured) (text : String) (c : Combined)
    (h : clean_and_combine_data now city md (some (sw, text)) = some c) :
    (c.temperature = round2 sw.temperature ∧
     c.humidity = round2 sw.humidity ∧
     c.wind_speed = round2 sw.wind_speed) ∧
    ((∃ k : ℤ, c.temperature * 100 = (k : ℚ)) ∧
     (∃ k : ℤ, c.humidity * 100 = (k : ℚ)) ∧
     (∃ k : ℤ, c.wind_speed * 100 = (k : ℚ))) ∧
    (|c.temperature - sw.temperature| ≤ 1 / 200 ∧
     |c.humidity - sw.humidity| ≤ 1 / 200 ∧
     |c.wind_speed - sw.wind_speed| ≤ 1 / 200) := by
  unfold clean_and_combine_data at h
  injection h with h
  subst h
  exact ⟨⟨rfl, rfl, rfl⟩,
    ⟨round2_two_decimals _, round2_two_decimals _, round2_two_decimals _⟩,
    ⟨round2_close _, round2_close _, round2_close _⟩⟩

/-- Witness for C8: a concrete combine call produces a record whose
temperature is the rounded fetched temperature, within 1/200 of it. -/
theorem clean_and_combine_rounds_witness :
    ∃ c, clean_and_combine_data "2026-10-12T00:00:00" "Paris" none
        (some (⟨18, 60, 5⟩, "mist")) = some c ∧
      c.temperature = round2 18 ∧ |c.temperature - 18| ≤ 1 / 200 := by
  obtain ⟨c, hc⟩ : ∃ c, clean_and_combine_data "2026-10-12T00:00:00" "Paris"
      none (some (⟨18, 60, 5⟩, "mist")) = some c := ⟨_, rfl⟩
  have h := clean_and_combine_rounds "2026-10-12T00:00:00" "Paris" none
    ⟨18, 60, 5⟩ "mist" c hc
  exact ⟨c, hc, h.1.1, h.2.2.1⟩

/-- Claim C9: the weather fetch is total at its interface: a transport
failure, a non-200 status, an unparsable body, and a success body missing
any expected field all yield the absent value, while a success body with
every field present yields the metrics paired with the description; no
provider behaviour escapes as an exception. -/
theorem fetch_weather_data_total (api : String → HttpOutcome)
    (city : String) :
    (api city = HttpOutcome.transportError →
      fetch_weather_data api city = none) ∧
    (∀ s b, api city = HttpOutcome.response s b → s ≠ 200 →
      fetch_weather_data api city = none) ∧
    (api city = HttpOutcome.response 200 none →
      fetch_weather_data api city = none) ∧
    (∀ d, api city = HttpOutcome.response 200 (some d) →
      ((d.mainTemp = none ∨ d.mainHumidity = none ∨ d.windSpeed = none ∨
        d.weather.head? = none ∨
        (∃ e, d.weather.head? = some e ∧ e.description = none)) →
        fetch_weather_data api city = none) ∧
      (∀ t h w e desc, d.mainTemp = some t → d.mainHumidity = some h →
        d.windSpeed = some w → d.weather.head? = some e →
        e.description = some desc →
        fetch_weather_data api city = some (⟨t, h, w⟩, desc))) := by
  refine ⟨?_, ?_, ?_, ?_⟩
  · intro h
    simp [fetch_weather_data, h]
  · intro s b h hs
    simp [fetch_weather_data, h, hs]
  · intro h
    simp [fetch_weather_data, h]
  · intro d h
    obtain ⟨mt, mh, ws, wl⟩ := d
    constructor
    · intro hmiss
      rcases hmiss with h1 | h1 | h1 | h1 | ⟨e, h1, h2⟩ <;>
        simp only at h1 ⊢ <;>
        cases mt <;> cases mh <;> cases ws <;>
        simp_all [fetch_weather_data, h]
    · intro t hh w e desc h1 h2 h3 h4 h5
      simp only at h1 h2 h3 h4
      subst h1
      subst h2
      subst h3
      simp [fetch_weather_data, h, h4, h5]

/-- Witness for C9: a 200 response with every expected field present
yields the structured metrics and the description. -/
theorem fetch_weather_data_total_witness :
    fetch_weather_data
      (fun _ => HttpOutcome.response 200 (some payload_ok)) "Paris" =
      some (⟨18, 60, 5⟩, "clear sky") :=
  ((fetch_weather_data_total
      (fun _ => HttpOutcome.response 200 (some payload_ok)) "Paris").2.2.2
    payload_ok rfl).2 18 60 5 { description := some "clear sky" }
    "clear sky" rfl rfl rfl rfl rfl

end WeatherInsight
